import Mathlib

/-!
Shallow embedding of the crabture screenshot helper (src/main.rs).

External effects (process spawns, filesystem operations, notifications) are
modelled by an oracle of outcomes together with an explicit trace of events
emitted in program order; the current local time is passed in explicitly.
Paths are strings, and `PathBuf::join a b` is modelled as `a ++ "/" ++ b`.
A run of a function returns the pair (trace of events, optional error);
`none` in the second component is `Ok(())`, and `some e` is the error the
Rust function returns via `?` or `bail!`.
-/

namespace Crabture

/-- Local time fields consumed by `file_name` via `OffsetDateTime`:
day, month, year, hour, minute, second. -/
structure Tm where
  day : Nat
  month : Nat
  year : Nat
  hour : Nat
  minute : Nat
  second : Nat
deriving DecidableEq

/-- `enum CaptureKind { Screen, Output, Area }` from main.rs. -/
inductive CaptureKind
  | screen
  | output
  | area
deriving DecidableEq

/-- `enum SaveHow { Copy, Save, Copysave, Edit }` from main.rs. -/
inductive SaveHow
  | copy
  | save
  | copysave
  | edit
deriving DecidableEq

/-- Observable external effects of a run, in program order.
`spawnPicker` is a successful `hyprpicker` spawn, `killPicker` the
`child.kill()` call, `grimblast` the blocking provider invocation with its
three positional arguments, `renameAttempt` an `fs::rename` call,
`copyAttempt` an `fs::copy` call, `removeAttempt` an `fs::remove_file`
call, `notifySend` a `notify-send` invocation, `sleepSecs` a blocking
`thread::sleep`, and `rofi` a menu-prompt invocation with its prompt and
option list. -/
inductive Event
  | spawnPicker
  | killPicker
  | grimblast (how : String) (kind : String) (path : String)
  | renameAttempt (src : String) (dest : String)
  | copyAttempt (src : String) (dest : String)
  | removeAttempt (path : String)
  | notifySend (title : String) (body : String)
  | sleepSecs (n : Nat)
  | rofi (prompt : String) (options : List String)
deriving DecidableEq

/-- The errors the program can return from `main` (anyhow errors in the
source, distinguished here by their message / construction site). -/
inductive Err
  | missingTool (name : String)
  | promptCancelled
  | rofiFailed
  | runningGrimblast
  | captureError
deriving DecidableEq

/-- ASCII lowercasing of one character, as `u8::to_ascii_lowercase` does:
only the range A..Z is shifted, everything else is untouched. -/
def asciiLower (c : Char) : Char :=
  if c.isUpper then Char.ofNat (c.toNat + 32) else c

/-- `str::eq_ignore_ascii_case` from the source: the two strings are equal
after ASCII lowercasing of each character (byte-level in Rust; for UTF-8
this agrees with the character-level map since non-ASCII bytes are
untouched). -/
def eqIgnoreAsciiCase (a b : String) : Bool :=
  a.data.map asciiLower == b.data.map asciiLower

/-- The extension selection inside `file_name`:
`if fmt.eq_ignore_ascii_case("jpg") || fmt.eq_ignore_ascii_case("jpeg")
\x7b "jpg" \x7d else \x7b "png" \x7d`. -/
def extOf (fmt : String) : String :=
  if eqIgnoreAsciiCase fmt "jpg" || eqIgnoreAsciiCase fmt "jpeg" then "jpg" else "png"

/-- Zero-padding to width 2, Rust `format!` with the 02 width spec. -/
def pad2 (n : Nat) : String :=
  if n < 10 then "0" ++ toString n else toString n

/-- Zero-padding to width 4, Rust `format!` with the 04 width spec. -/
def pad4 (n : Nat) : String :=
  if n < 10 then "000" ++ toString n
  else if n < 100 then "00" ++ toString n
  else if n < 1000 then "0" ++ toString n
  else toString n

/-- `file_name(fmt)` from main.rs, with the current local time passed in
explicitly: `screenshot_DDMMYYYY_HHMMSS.<ext>`. -/
def file_name (fmt : String) (now : Tm) : String :=
  "screenshot_" ++ pad2 now.day ++ pad2 now.month ++ pad4 now.year ++ "_" ++
    pad2 now.hour ++ pad2 now.minute ++ pad2 now.second ++ "." ++ extOf fmt

/-- `notify(title, body)` from main.rs: one `notify-send` invocation whose
exit status is discarded, so the function itself never fails. -/
def notify (title : String) (body : String) : List Event :=
  [Event.notifySend title body]

/-- The loop body trace of `countdown`: `while secs > 0` emits a
notification with the remaining count, sleeps one second, decrements. -/
def countdownLoop : Nat → List Event
  | 0 => []
  | n + 1 =>
      Event.notifySend "Taking screenshot" ("in " ++ toString (n + 1) ++ " seconds") ::
        Event.sleepSecs 1 :: countdownLoop n

/-- `countdown(secs)` from main.rs. If `secs > 10` it emits one
notification naming the full remaining time, sleeps `secs - 10` seconds and
resets `secs` to 10; then the per-second loop runs. The Rust function
returns `Result` but `notify` never fails, so only the trace is modelled. -/
def countdown (secs : Nat) : List Event :=
  if secs > 10 then
    Event.notifySend "Taking screenshot" ("in " ++ toString secs ++ " seconds") ::
      Event.sleepSecs (secs - 10) :: countdownLoop 10
  else countdownLoop secs

/-- Oracle for the external outcomes one `take` invocation can observe:
whether `which("hyprpicker")` succeeds, whether the `hyprpicker` spawn
succeeds, the grimblast `.status()` outcome (`none` means the status call
itself returned an Err, `some b` an exit status with success flag `b`),
whether `tmp_path.exists()`, and whether `fs::rename` / `fs::copy`
succeed. -/
structure TakeOracle where
  hyprpickerPresent : Bool
  spawnOk : Bool
  grimblastStatus : Option Bool
  tmpExists : Bool
  renameOk : Bool
  copyOk : Bool
deriving DecidableEq

/-- The `how_s` mapping in `take`. -/
def howStr : SaveHow → String
  | .copy => "copy"
  | .save => "save"
  | .copysave => "copysave"
  | .edit => "edit"

/-- The `kind_s` mapping in `take`. -/
def kindStr : CaptureKind → String
  | .screen => "screen"
  | .output => "output"
  | .area => "area"

/-- Whether `take` holds a live picker handle: the kind is Area, hyprpicker
is on the PATH, and its spawn succeeded (`c.spawn().ok()` tolerates spawn
failure by leaving the handle empty). -/
def spawnedPicker (o : TakeOracle) (kind : CaptureKind) : Bool :=
  kind == CaptureKind.area && o.hyprpickerPresent && o.spawnOk

/-- `take(kind, how, shot_dir, format, _rofi_cfg)` from main.rs, with the
current time and home directory passed in explicitly.

Mirrors the source line by line: compute `name` once and the temporary path
`home/name`; optionally spawn the freeze helper; run grimblast with
`--notify how_s kind_s tmp_path` and block on `.status()` — if that call
itself errors the `?` returns at once (note: before the kill block); kill
the picker handle if present; bail with CaptureError on a failure status;
if the temporary file exists, try `fs::rename` to `shot_dir/name` and on
error fall back to `fs::copy` followed by a tolerated `fs::remove_file`,
the fallback closure discarding the copy result and returning `Ok(())`
unconditionally; finally notify success. -/
def take (o : TakeOracle) (kind : CaptureKind) (how : SaveHow)
    (shotDir : String) (fmt : String) (home : String) (now : Tm) :
    List Event × Option Err :=
  let name := file_name fmt now
  let tmpPath := home ++ "/" ++ name
  let spawned := spawnedPicker o kind
  let ev0 : List Event := if spawned then [Event.spawnPicker] else []
  let gEv := Event.grimblast (howStr how) (kindStr kind) tmpPath
  match o.grimblastStatus with
  | none => (ev0 ++ [gEv], some Err.runningGrimblast)
  | some okStatus =>
      let ev1 := ev0 ++ [gEv] ++ (if spawned then [Event.killPicker] else [])
      if !okStatus then (ev1, some Err.captureError)
      else if o.tmpExists then
        let dest := shotDir ++ "/" ++ name
        let evReloc :=
          if o.renameOk then [Event.renameAttempt tmpPath dest]
          else
            [Event.renameAttempt tmpPath dest, Event.copyAttempt tmpPath dest] ++
              (if o.copyOk then [Event.removeAttempt tmpPath] else [])
        (ev1 ++ evReloc ++ notify "Screenshot saved" ("DIR: " ++ shotDir), none)
      else (ev1, none)

/-- Rust `str::trim`: strip leading and trailing whitespace (the ASCII
whitespace classes suffice for the strings this program handles). -/
def strTrim (s : String) : String :=
  String.mk (((s.data.dropWhile Char.isWhitespace).reverse.dropWhile
    Char.isWhitespace).reverse)

/-- Outcome of one rofi invocation as observed by `rofi_pick`: the process
ran and exited successfully with the given raw stdout; or it ran and exited
with a non-success status; or spawning / writing stdin / waiting failed. -/
inductive RofiOutcome
  | ok (out : String)
  | cancelled
  | ioFailed
deriving DecidableEq

/-- `rofi_pick(prompt, options, cfg)` from main.rs: spawn rofi in dmenu
mode, feed the options newline-joined on stdin, wait; a non-success exit
status bails with the cancellation error, otherwise the trimmed stdout is
returned. -/
def rofi_pick (out : RofiOutcome) (prompt : String) (options : List String) :
    List Event × Except Err String :=
  match out with
  | .ok s => ([Event.rofi prompt options], Except.ok (strTrim s))
  | .cancelled => ([Event.rofi prompt options], Except.error Err.promptCancelled)
  | .ioFailed => ([Event.rofi prompt options], Except.error Err.rofiFailed)

/-- Rust `str::trim_end_matches("s")`: drop every trailing `s`. -/
def trimEndS (s : String) : String :=
  String.mk ((s.data.reverse.dropWhile (fun c => c == 's')).reverse)

/-- Rust `str::parse::<u64>()`: an optional leading plus sign, then one or
more ASCII digits, with the value required to fit in 64 bits. -/
def parseU64 (s : String) : Option Nat :=
  let ds := match s.data with
    | '+' :: rest => rest
    | l => l
  if ds ≠ [] ∧ ds.all (fun c => c.isDigit) then
    let n := ds.foldl (fun acc c => acc * 10 + (c.toNat - 48)) 0
    if n < 2 ^ 64 then some n else none
  else none

/-- Oracle for one `run_interactive` invocation: the outcome of each of the
four rofi prompts (in flow order), and the oracle for the final `take`. -/
structure FlowOracle where
  whenPick : RofiOutcome
  timerPick : RofiOutcome
  kindPick : RofiOutcome
  howPick : RofiOutcome
  takeO : TakeOracle
deriving DecidableEq

/-- `run_interactive(shot_dir, format, rofi_cfg)` from main.rs: four
prompts in fixed order (timing, delay duration when "Delayed", region
kind, destination), then an optional countdown, then `take`. Each `?` on a
failed prompt propagates the error, ending the flow. -/
def run_interactive (o : FlowOracle) (shotDir : String) (fmt : String)
    (home : String) (now : Tm) : List Event × Option Err :=
  match rofi_pick o.whenPick "Take screenshot" ["Immediate", "Delayed"] with
  | (ev1, Except.error e) => (ev1, some e)
  | (ev1, Except.ok whenS) =>
      let delayStep : List Event × Except Err Nat :=
        if whenS == "Delayed" then
          match rofi_pick o.timerPick "Choose timer" ["5s", "10s", "20s", "30s", "60s"] with
          | (ev, Except.error e) => (ev, Except.error e)
          | (ev, Except.ok t) => (ev, Except.ok ((parseU64 (trimEndS t)).getD 5))
        else ([], Except.ok 0)
      match delayStep with
      | (ev2, Except.error e) => (ev1 ++ ev2, some e)
      | (ev2, Except.ok delay) =>
          match rofi_pick o.kindPick "Type of screenshot"
              ["Capture Everything", "Capture Active Display", "Capture Selection"] with
          | (ev3, Except.error e) => (ev1 ++ ev2 ++ ev3, some e)
          | (ev3, Except.ok kindS) =>
              let kind :=
                if kindS == "Capture Everything" then CaptureKind.screen
                else if kindS == "Capture Active Display" then CaptureKind.output
                else CaptureKind.area
              match rofi_pick o.howPick "How to save"
                  ["Copy", "Save", "Copy & Save", "Edit"] with
              | (ev4, Except.error e) => (ev1 ++ ev2 ++ ev3 ++ ev4, some e)
              | (ev4, Except.ok howS) =>
                  let how :=
                    if howS == "Copy" then SaveHow.copy
                    else if howS == "Save" then SaveHow.save
                    else if howS == "Copy & Save" then SaveHow.copysave
                    else SaveHow.edit
                  let ev5 := if delay > 0 then countdown delay else []
                  let r := take o.takeO kind how shotDir fmt home now
                  (ev1 ++ ev2 ++ ev3 ++ ev4 ++ ev5 ++ r.1, r.2)

/-- `path.replace("$HOME", home)` from the source, specialized to its one
fixed pattern: every occurrence of the home placeholder is substituted,
left to right and non-overlapping. -/
def substHomeChars (home : List Char) : List Char → List Char
  | '$' :: 'H' :: 'O' :: 'M' :: 'E' :: rest => home ++ substHomeChars home rest
  | c :: rest => c :: substHomeChars home rest
  | [] => []

/-- String-level wrapper of `substHomeChars`. -/
def substHome (home : String) (s : String) : String :=
  String.mk (substHomeChars home.data s.data)

/-- Splitting a character list at every newline. -/
def splitNl : List Char → List (List Char)
  | [] => [[]]
  | '\n' :: rest => [] :: splitNl rest
  | c :: rest =>
      match splitNl rest with
      | [] => [[c]]
      | l :: ls => (c :: l) :: ls

/-- Strip one trailing carriage return, as `str::lines` does per line. -/
def stripCr (l : List Char) : List Char :=
  match l.reverse with
  | '\r' :: rest => rest.reverse
  | _ => l

/-- Rust `str::lines`: split on the newline and strip one trailing
carriage return per line (the trailing empty chunk a final newline
produces never matches the key prefix, so it is harmless here). -/
def rustLines (s : String) : List String :=
  (splitNl s.data).map (fun l => String.mk (stripCr l))

/-- Rust `str::trim_matches` with the double-quote character: strip every
leading and trailing double quote. -/
def trimQuotes (s : String) : String :=
  String.mk (((s.data.dropWhile (fun c => c == '"')).reverse.dropWhile
    (fun c => c == '"')).reverse)

/-- `line.strip_prefix("XDG_SCREENSHOTS_DIR=")` from `xdg_screenshots_dir`:
when the key prefix heads the line, the remainder after it. -/
def xdgEntryOfLine (line : String) : Option String :=
  if ("XDG_SCREENSHOTS_DIR=".data).isPrefixOf line.data then
    some (String.mk (line.data.drop ("XDG_SCREENSHOTS_DIR=".data).length))
  else none

/-- The per-line loop of `xdg_screenshots_dir`: the first line carrying the
key prefix yields its remainder. -/
def firstXdgEntry : List String → Option String
  | [] => none
  | l :: ls =>
      match xdgEntryOfLine l with
      | some v => some v
      | none => firstXdgEntry ls

/-- `xdg_screenshots_dir()` from main.rs with the environment snapshot
passed in explicitly: the environment variable content when set (with the
home placeholder substituted), else the first `XDG_SCREENSHOTS_DIR=` line
of `~/.config/user-dirs.dirs` (the file content is `cfgFile`, `none` when
unreadable), trimmed, quote-stripped and substituted. -/
def xdg_screenshots_dir (envXdg : Option String) (cfgFile : Option String)
    (home : String) : Option String :=
  match envXdg with
  | some path => some (substHome home path)
  | none =>
      match cfgFile with
      | none => none
      | some s =>
          match firstXdgEntry (rustLines s) with
          | some rest => some (substHome home (trimQuotes (strTrim rest)))
          | none => none

/-- The `shot_dir` resolution in `main`:
`cli.dir.or_else(xdg_screenshots_dir).unwrap_or(home().join("Pictures"))`. -/
def resolveDir (cliDir : Option String) (envXdg : Option String)
    (cfgFile : Option String) (home : String) : String :=
  (cliDir.or (xdg_screenshots_dir envXdg cfgFile home)).getD (home ++ "/Pictures")

/-- Oracle for one whole `main` run: the `ensure_tools` outcome (`some n`
when required tool `n` is the first one missing), the parsed CLI flags and
arguments, the environment snapshot, and the oracles of the up to two
`take` calls and of the interactive flow. The `--interactive` flag is
parsed by the source but never read, which the model mirrors. -/
structure MainOracle where
  missing : Option String
  cliInstant : Bool
  cliInstantArea : Bool
  cliInteractive : Bool
  cliDir : Option String
  cliFormat : String
  envXdg : Option String
  cfgFile : Option String
  home : String
  now : Tm
  instantTakeO : TakeOracle
  areaTakeO : TakeOracle
  flowO : FlowOracle
deriving DecidableEq

/-- `main()` from main.rs: check the three required tools, resolve the
screenshot directory (`create_dir_all` failure is discarded and not
modelled as an event), run the instant capture when `--instant` is set,
run the instant area capture and return when `--instant-area` is set, and
otherwise fall through into `run_interactive`. Note the `--instant` branch
has no early return in the source: after a successful instant capture the
run continues. -/
def mainRun (o : MainOracle) : List Event × Option Err :=
  match o.missing with
  | some n => ([], some (Err.missingTool n))
  | none =>
      let shotDir := resolveDir o.cliDir o.envXdg o.cfgFile o.home
      let r1 :=
        if o.cliInstant then
          take o.instantTakeO CaptureKind.screen SaveHow.save shotDir o.cliFormat o.home o.now
        else ([], none)
      match r1 with
      | (ev1, some e) => (ev1, some e)
      | (ev1, none) =>
          let r2 :=
            if o.cliInstantArea then
              take o.areaTakeO CaptureKind.area SaveHow.save shotDir o.cliFormat o.home o.now
            else ([], none)
          match r2 with
          | (ev2, some e) => (ev1 ++ ev2, some e)
          | (ev2, none) =>
              if o.cliInstantArea then (ev1 ++ ev2, none)
              else
                let r3 := run_interactive o.flowO shotDir o.cliFormat o.home o.now
                (ev1 ++ ev2 ++ r3.1, r3.2)

/-- Is this event a notification? -/
def isNotifyEvent : Event → Bool
  | .notifySend _ _ => true
  | _ => false

/-- Is this event a capture-provider invocation? -/
def isCaptureEvent : Event → Bool
  | .grimblast _ _ _ => true
  | _ => false

/-- Is this event part of a relocation attempt (rename, copy or the
delete-after-copy)? -/
def isRelocEvent : Event → Bool
  | .renameAttempt _ _ => true
  | .copyAttempt _ _ => true
  | .removeAttempt _ => true
  | _ => false

/-- Number of notifications in a trace. -/
def notifCount (evs : List Event) : Nat :=
  (evs.filter isNotifyEvent).length

/-- A flow result that was cancelled cleanly: the run ends with the prompt
cancellation error and its trace holds no capture-provider invocation and
no relocation attempt. -/
def cancelledNoCapture (r : List Event × Option Err) : Prop :=
  r.2 = some Err.promptCancelled ∧
    r.1.all (fun e => !(isCaptureEvent e || isRelocEvent e)) = true

/-- Path discipline of one event with respect to filename `n`: a provider
invocation writes to `home/n`, and every relocation event reads `home/n`
and writes `shotDir/n`. -/
def pathUses (n : String) (home : String) (shotDir : String) : Event → Bool
  | .grimblast _ _ p => p == home ++ "/" ++ n
  | .renameAttempt s d => s == home ++ "/" ++ n && d == shotDir ++ "/" ++ n
  | .copyAttempt s d => s == home ++ "/" ++ n && d == shotDir ++ "/" ++ n
  | .removeAttempt p => p == home ++ "/" ++ n
  | _ => true

/-- A fixed sample time for concrete evaluations. -/
def tm0 : Tm := ⟨14, 3, 2025, 12, 30, 45⟩

/-- A concrete full-run oracle: only the instant flag is set, the three
required tools are present, and every external call of the instant capture
succeeds; the interactive prompts, if ever consulted, cancel at once. -/
def instantOnlyOracle : MainOracle :=
  ⟨none, true, false, false, some "/shots", "png", none, none, "/home/u", tm0,
    ⟨false, false, some true, true, true, true⟩,
    ⟨false, false, some true, false, true, true⟩,
    ⟨RofiOutcome.cancelled, RofiOutcome.cancelled, RofiOutcome.cancelled,
      RofiOutcome.cancelled, ⟨false, false, some true, false, true, true⟩⟩⟩

theorem notifCount_countdownLoop (n : Nat) : notifCount (countdownLoop n) = n := by
  induction n with
  | zero => rfl
  | succ k ih =>
      simp [countdownLoop, notifCount, isNotifyEvent, List.filter] at ih ⊢
      omega

/-- Claim C10: countdown with 0 seconds emits zero notifications and
performs no sleep — its trace is empty, the function returns at once. -/
theorem c10_countdown_zero_is_silent : countdown 0 = [] := rfl

/-- Claim C4: countdown above 10 seconds emits one notification naming the
full remaining time, sleeps the excess, then notifies once per remaining
second; countdown 15 yields 11 notifications, countdown 3 yields 3, and no
delay ever yields more than 11. -/
theorem c4_countdown_coalescing :
    (∀ s : Nat, 10 < s →
      countdown s =
        Event.notifySend "Taking screenshot" ("in " ++ toString s ++ " seconds") ::
          Event.sleepSecs (s - 10) :: countdownLoop 10 ∧
      notifCount (countdown s) = 11) ∧
    notifCount (countdown 15) = 11 ∧
    notifCount (countdown 3) = 3 ∧
    ∀ s : Nat, notifCount (countdown s) ≤ 11 := by
  have hloop := notifCount_countdownLoop
  refine ⟨fun s hs => ⟨by simp [countdown, hs], ?_⟩, by decide, by decide, fun s => ?_⟩
  · simp [countdown, hs, notifCount, isNotifyEvent, List.filter]
  · by_cases hs : 10 < s
    · simp [countdown, hs, notifCount, isNotifyEvent, List.filter]
    · have := hloop s
      simp [countdown, hs]
      omega

/-- Claim C4 witness at the concrete delay 15. -/
theorem c4_countdown_coalescing_witness :
    notifCount (countdown 15) = 11 :=
  (c4_countdown_coalescing.1 15 (by decide)).2

/-- Claim C9: the format string maps to the extension case-insensitively —
any string that ASCII-lowercases to jpg or jpeg yields the jpg extension,
every other string yields png. -/
theorem c9_format_extension_mapping :
    (∀ s : String,
      extOf s =
        if s.data.map asciiLower = "jpg".data ∨ s.data.map asciiLower = "jpeg".data
        then "jpg" else "png") ∧
    extOf "JPG" = "jpg" ∧ extOf "jpeg" = "jpg" ∧ extOf "JPEG" = "jpg" ∧
    extOf "jPg" = "jpg" ∧ extOf "png" = "png" ∧ extOf "PNG" = "png" ∧
    extOf "" = "png" ∧ extOf "gif" = "png" := by
  refine ⟨fun s => ?_, by decide, by decide, by decide, by decide, by decide,
    by decide, by decide, by decide⟩
  have hj : "jpg".data.map asciiLower = "jpg".data := by decide
  have hje : "jpeg".data.map asciiLower = "jpeg".data := by decide
  by_cases h1 : s.data.map asciiLower = "jpg".data <;>
    by_cases h2 : s.data.map asciiLower = "jpeg".data <;>
      simp [extOf, eqIgnoreAsciiCase, hj, hje, h1, h2]

/-- Claim C7: directory resolution precedence — explicit override first,
else the environment variable with the home placeholder substituted, else
the first XDG_SCREENSHOTS_DIR entry of the user-dirs file (trimmed,
quote-stripped, substituted), else the Pictures subdirectory of home. -/
theorem c7_directory_resolution (d e s v home : String)
    (envX : Option String) (cfg : Option String) :
    resolveDir (some d) envX cfg home = d ∧
    resolveDir none (some e) cfg home = substHome home e ∧
    (firstXdgEntry (rustLines s) = some v →
      resolveDir none none (some s) home = substHome home (trimQuotes (strTrim v))) ∧
    (firstXdgEntry (rustLines s) = none →
      resolveDir none none (some s) home = home ++ "/Pictures") ∧
    resolveDir none none none home = home ++ "/Pictures" := by
  refine ⟨rfl, rfl, fun h => ?_, fun h => ?_, rfl⟩
  · simp [resolveDir, xdg_screenshots_dir, h]
  · simp [resolveDir, xdg_screenshots_dir, h]

/-- Claim C7 witness on a concrete user-dirs file, exercising the
config-file tier. -/
theorem c7_directory_resolution_witness :
    firstXdgEntry (rustLines
      "XDG_DOWNLOAD_DIR=\"$HOME/Downloads\"\nXDG_SCREENSHOTS_DIR=\"$HOME/Shots\"") =
        some "\"$HOME/Shots\"" ∧
    resolveDir none none
      (some "XDG_DOWNLOAD_DIR=\"$HOME/Downloads\"\nXDG_SCREENSHOTS_DIR=\"$HOME/Shots\"")
      "/home/u" = substHome "/home/u" (trimQuotes (strTrim "\"$HOME/Shots\"")) :=
  ⟨by decide,
    (c7_directory_resolution "" ""
      "XDG_DOWNLOAD_DIR=\"$HOME/Downloads\"\nXDG_SCREENSHOTS_DIR=\"$HOME/Shots\""
      "\"$HOME/Shots\"" "/home/u" none none).2.2.1 (by decide)⟩

/-- Claim C8: one invocation of take computes a single timestamped filename
and uses it both for the temporary write path under home and for the final
destination path under the target directory — every provider invocation
and every relocation event in the trace uses exactly those two paths. -/
theorem c8_single_filename_reused (o : TakeOracle) (kind : CaptureKind) (how : SaveHow)
    (shotDir fmt home : String) (now : Tm) :
    ((take o kind how shotDir fmt home now).1.all
      (pathUses (file_name fmt now) home shotDir)) = true := by
  obtain ⟨hp, sp, gs, te, ro, co⟩ := o
  cases gs with
  | none =>
      cases kind <;> cases hp <;> cases sp <;>
        simp [take, spawnedPicker, pathUses, notify]
  | some okStatus =>
      cases okStatus <;> cases te <;> cases ro <;> cases co <;>
        cases kind <;> cases hp <;> cases sp <;>
          simp [take, spawnedPicker, pathUses, notify]

/-- Claim C5: when the capture provider exits with a failure status, take
aborts with the capture error, its trace holds no relocation event and no
notification, and a spawned freeze helper has been killed — the kill is
the last event before the error return. -/
theorem c5_provider_failure_aborts (o : TakeOracle) (kind : CaptureKind) (how : SaveHow)
    (shotDir fmt home : String) (now : Tm)
    (h : o.grimblastStatus = some false) :
    (take o kind how shotDir fmt home now).2 = some Err.captureError ∧
    ((take o kind how shotDir fmt home now).1.all
      (fun e => !(isRelocEvent e || isNotifyEvent e))) = true ∧
    (spawnedPicker o kind = true →
      (take o kind how shotDir fmt home now).1.getLast? = some Event.killPicker) := by
  obtain ⟨hp, sp, gs, te, ro, co⟩ := o
  simp only at h
  subst h
  cases kind <;> cases hp <;> cases sp <;>
    simp [take, spawnedPicker, isRelocEvent, isNotifyEvent]

/-- Claim C5 witness: an area capture with a live freeze helper and a
failing provider. -/
theorem c5_provider_failure_aborts_witness :
    (take ⟨true, true, some false, false, false, false⟩ CaptureKind.area SaveHow.save
      "/s" "png" "/h" tm0).2 = some Err.captureError ∧
    ((take ⟨true, true, some false, false, false, false⟩ CaptureKind.area SaveHow.save
      "/s" "png" "/h" tm0).1.all
        (fun e => !(isRelocEvent e || isNotifyEvent e))) = true ∧
    (spawnedPicker ⟨true, true, some false, false, false, false⟩ CaptureKind.area = true →
      (take ⟨true, true, some false, false, false, false⟩ CaptureKind.area SaveHow.save
        "/s" "png" "/h" tm0).1.getLast? = some Event.killPicker) :=
  c5_provider_failure_aborts ⟨true, true, some false, false, false, false⟩
    CaptureKind.area SaveHow.save "/s" "png" "/h" tm0 (by decide)

/-- Claim C3, counterexample to the claim as stated: with the freeze helper
spawned for an area capture, the path where invoking the provider itself
fails (the status call errors) exits without ever killing the helper. -/
theorem c3_unkilled_helper_counterexample :
    Event.spawnPicker ∈
      (take ⟨true, true, none, false, false, false⟩ CaptureKind.area SaveHow.save
        "/s" "png" "/h" tm0).1 ∧
    Event.killPicker ∉
      (take ⟨true, true, none, false, false, false⟩ CaptureKind.area SaveHow.save
        "/s" "png" "/h" tm0).1 ∧
    (take ⟨true, true, none, false, false, false⟩ CaptureKind.area SaveHow.save
      "/s" "png" "/h" tm0).2 = some Err.runningGrimblast := by
  decide

/-- Claim C3 as amended: the helper is killed on every path where the
provider invocation returns an exit status, success or failure; on the
path where the invocation itself fails early, the helper is not killed. -/
theorem c3_helper_teardown (o : TakeOracle) (kind : CaptureKind) (how : SaveHow)
    (shotDir fmt home : String) (now : Tm) :
    (∀ b : Bool, o.grimblastStatus = some b → spawnedPicker o kind = true →
      Event.killPicker ∈ (take o kind how shotDir fmt home now).1) ∧
    (o.grimblastStatus = none →
      Event.killPicker ∉ (take o kind how shotDir fmt home now).1) := by
  obtain ⟨hp, sp, gs, te, ro, co⟩ := o
  constructor
  · intro b hb hsp
    simp only at hb
    subst hb
    simp only [spawnedPicker] at hsp
    cases b <;> cases kind <;> cases hp <;> cases sp <;> cases te <;> cases ro <;> cases co <;>
      simp_all [take, spawnedPicker]
  · intro hb
    simp only at hb
    subst hb
    cases kind <;> cases hp <;> cases sp <;>
      simp [take, spawnedPicker]

/-- Claim C3 witness: the helper is killed both on a failing and on a
succeeding provider status. -/
theorem c3_helper_teardown_witness :
    Event.killPicker ∈
      (take ⟨true, true, some false, false, false, false⟩ CaptureKind.area SaveHow.save
        "/s" "png" "/h" tm0).1 ∧
    Event.killPicker ∈
      (take ⟨true, true, some true, true, true, true⟩ CaptureKind.area SaveHow.save
        "/s" "png" "/h" tm0).1 :=
  ⟨(c3_helper_teardown ⟨true, true, some false, false, false, false⟩ CaptureKind.area
      SaveHow.save "/s" "png" "/h" tm0).1 false (by decide) (by decide),
   (c3_helper_teardown ⟨true, true, some true, true, true, true⟩ CaptureKind.area
      SaveHow.save "/s" "png" "/h" tm0).1 true (by decide) (by decide)⟩

/-- Claim C2, counterexample to the claim as stated: with the provider
succeeding, the temporary file present, and both the rename and the copy
failing, take still returns success — no fatal relocation error exists —
and the success notification still fires. -/
theorem c2_swallowed_counterexample :
    (take ⟨false, false, some true, true, false, false⟩ CaptureKind.screen SaveHow.save
      "/s" "png" "/h" tm0).2 = none ∧
    Event.notifySend "Screenshot saved" "DIR: /s" ∈
      (take ⟨false, false, some true, true, false, false⟩ CaptureKind.screen SaveHow.save
        "/s" "png" "/h" tm0).1 := by
  decide

/-- Claim C2 as amended: when the temporary file exists after a successful
provider run and both the atomic move and the copy fallback fail, the
failure is silently swallowed — the invocation succeeds and the success
notification is still emitted. -/
theorem c2_relocation_failure_swallowed (o : TakeOracle) (kind : CaptureKind)
    (how : SaveHow) (shotDir fmt home : String) (now : Tm)
    (hs : o.grimblastStatus = some true) (ht : o.tmpExists = true)
    (hr : o.renameOk = false) (hc : o.copyOk = false) :
    (take o kind how shotDir fmt home now).2 = none ∧
    Event.notifySend "Screenshot saved" ("DIR: " ++ shotDir) ∈
      (take o kind how shotDir fmt home now).1 := by
  obtain ⟨hp, sp, gs, te, ro, co⟩ := o
  simp only at hs ht hr hc
  subst hs; subst ht; subst hr; subst hc
  cases kind <;> cases hp <;> cases sp <;>
    simp [take, spawnedPicker, notify]

/-- Claim C2 witness at a concrete failing relocation. -/
theorem c2_relocation_failure_swallowed_witness :
    (take ⟨true, true, some true, true, false, false⟩ CaptureKind.area SaveHow.copysave
      "/shots" "jpg" "/home/u" tm0).2 = none ∧
    Event.notifySend "Screenshot saved" ("DIR: " ++ "/shots") ∈
      (take ⟨true, true, some true, true, false, false⟩ CaptureKind.area SaveHow.copysave
        "/shots" "jpg" "/home/u" tm0).1 :=
  c2_relocation_failure_swallowed ⟨true, true, some true, true, false, false⟩
    CaptureKind.area SaveHow.copysave "/shots" "jpg" "/home/u" tm0
    (by decide) (by decide) (by decide) (by decide)

/-- Claim C6: cancellation at any of the four menu prompts fails the flow
with the cancellation error and unwinds it — the trace holds no
capture-provider invocation and no relocation attempt. One conjunct per
prompt slot, each under the hypotheses that make that slot reachable. -/
theorem c6_cancellation_unwinds_flow (o : FlowOracle) (shotDir fmt home : String)
    (now : Tm) :
    (o.whenPick = RofiOutcome.cancelled →
      cancelledNoCapture (run_interactive o shotDir fmt home now)) ∧
    (∀ s, o.whenPick = RofiOutcome.ok s → strTrim s = "Delayed" →
      o.timerPick = RofiOutcome.cancelled →
      cancelledNoCapture (run_interactive o shotDir fmt home now)) ∧
    (∀ s, o.whenPick = RofiOutcome.ok s →
      (strTrim s ≠ "Delayed" ∨ ∃ t, o.timerPick = RofiOutcome.ok t) →
      o.kindPick = RofiOutcome.cancelled →
      cancelledNoCapture (run_interactive o shotDir fmt home now)) ∧
    (∀ s, o.whenPick = RofiOutcome.ok s →
      (strTrim s ≠ "Delayed" ∨ ∃ t, o.timerPick = RofiOutcome.ok t) →
      (∃ k, o.kindPick = RofiOutcome.ok k) →
      o.howPick = RofiOutcome.cancelled →
      cancelledNoCapture (run_interactive o shotDir fmt home now)) := by
  refine ⟨fun h => ?_, fun s hw hd ht => ?_, fun s hw hor hk => ?_,
    fun s hw hor hk hh => ?_⟩
  · simp [run_interactive, rofi_pick, h, cancelledNoCapture, isCaptureEvent, isRelocEvent]
  · simp [run_interactive, rofi_pick, hw, hd, ht, cancelledNoCapture,
      isCaptureEvent, isRelocEvent]
  · rcases hor with hne | ⟨t, htt⟩
    · have hb : (strTrim s == "Delayed") = false := by
        simpa using hne
      simp [run_interactive, rofi_pick, hw, hb, hk, cancelledNoCapture,
        isCaptureEvent, isRelocEvent]
    · by_cases hb : (strTrim s == "Delayed") = true
      · simp [run_interactive, rofi_pick, hw, hb, htt, hk, cancelledNoCapture,
          isCaptureEvent, isRelocEvent]
      · simp at hb
        simp [run_interactive, rofi_pick, hw, hb, hk, cancelledNoCapture,
          isCaptureEvent, isRelocEvent]
  · obtain ⟨k, hkk⟩ := hk
    rcases hor with hne | ⟨t, htt⟩
    · have hb : (strTrim s == "Delayed") = false := by
        simpa using hne
      simp [run_interactive, rofi_pick, hw, hb, hkk, hh, cancelledNoCapture,
        isCaptureEvent, isRelocEvent]
    · by_cases hb : (strTrim s == "Delayed") = true
      · simp [run_interactive, rofi_pick, hw, hb, htt, hkk, hh, cancelledNoCapture,
          isCaptureEvent, isRelocEvent]
      · simp at hb
        simp [run_interactive, rofi_pick, hw, hb, hkk, hh, cancelledNoCapture,
          isCaptureEvent, isRelocEvent]

/-- Claim C6 witness: cancelling the very first prompt. -/
theorem c6_cancellation_unwinds_flow_witness :
    cancelledNoCapture (run_interactive
      ⟨RofiOutcome.cancelled, RofiOutcome.cancelled, RofiOutcome.cancelled,
        RofiOutcome.cancelled, ⟨false, false, some true, false, true, true⟩⟩
      "/s" "png" "/h" tm0) :=
  (c6_cancellation_unwinds_flow
    ⟨RofiOutcome.cancelled, RofiOutcome.cancelled, RofiOutcome.cancelled,
      RofiOutcome.cancelled, ⟨false, false, some true, false, true, true⟩⟩
    "/s" "png" "/h" tm0).1 rfl

/-- Claim C1, evaluated at the failing input: a run with only the instant
flag set performs the full-screen save capture and then still enters the
interactive flow — the first rofi menu prompt is invoked — because the
instant branch of main has no early return; the run then ends with the
prompt-cancellation error instead of success. -/
theorem c1_instant_still_enters_ui :
    Event.grimblast "save" "screen" "/home/u/screenshot_14032025_123045.png" ∈
      (mainRun instantOnlyOracle).1 ∧
    Event.rofi "Take screenshot" ["Immediate", "Delayed"] ∈
      (mainRun instantOnlyOracle).1 ∧
    (mainRun instantOnlyOracle).2 = some Err.promptCancelled := by
  decide

end Crabture
